import Mathlib

/-!
Shallow embedding of the skywalker alignment console
(`skywalker/gui.py`, `skywalker/widgetgroup.py`, `skywalker/skywalker_gui.py`).

Conventions used throughout:
* Python floats are modelled as `ℚ` (all the arithmetic exercised by the
  verified claims is exact: sums, differences and divisions of decimal
  literals).
* A Python value that may be `None` is modelled as an `Option`.
* A Python `dict` is modelled as an insertion-ordered association list
  `List (String × α)` with first-match lookup and replace-or-append insert.
* Python code that can raise is modelled in `Except String`, where the
  error string names the Python exception; `try/except` boundaries become
  `match` on the `Except` value.
-/

namespace Skywalker

/-- First-match lookup in an association list, i.e. Python `d.get(key)` /
`d[key]` (the latter raising `KeyError` on `none` at its call sites). -/
def dictLookup {α : Type} : List (String × α) → String → Option α
  | [], _ => none
  | (k, v) :: rest, key => if k = key then some v else dictLookup rest key

/-- Python `d[key] = v` on a dict: replace the value of an existing key in
place, otherwise append the new binding at the end. -/
def dictInsert {α : Type} : List (String × α) → String → α → List (String × α)
  | [], key, v => [(key, v)]
  | (k, w) :: rest, key, v =>
    if k = key then (key, v) :: rest else (k, w) :: dictInsert rest key v

theorem dictLookup_dictInsert_self {α : Type} (d : List (String × α))
    (key : String) (v : α) : dictLookup (dictInsert d key v) key = some v := by
  induction d with
  | nil => simp [dictInsert, dictLookup]
  | cons p rest ih =>
    obtain ⟨k, w⟩ := p
    by_cases hk : k = key
    · simp [dictInsert, hk, dictLookup]
    · simp [dictInsert, hk, dictLookup, ih]

theorem dictLookup_dictInsert_ne {α : Type} (d : List (String × α))
    (key k : String) (v : α) (hne : k ≠ key) :
    dictLookup (dictInsert d k v) key = dictLookup d key := by
  induction d with
  | nil => simp [dictInsert, dictLookup, hne]
  | cons p rest ih =>
    obtain ⟨k₀, w⟩ := p
    by_cases hk : k₀ = k
    · subst hk
      simp [dictInsert, dictLookup, hne]
    · simp [dictInsert, hk, dictLookup, ih]

theorem dictLookup_dictInsert_isSome {α : Type} (d : List (String × α))
    (key k : String) (v w : α) (h : dictLookup d key = some w) :
    ∃ u, dictLookup (dictInsert d k v) key = some u := by
  by_cases hk : k = key
  · subst hk
    exact ⟨v, dictLookup_dictInsert_self d k v⟩
  · exact ⟨w, by rw [dictLookup_dictInsert_ne d key k v hk]; exact h⟩

/-- Keys present after a `dictInsert` were either present before or are the
inserted key. -/
theorem dictLookup_dictInsert_none {α : Type} (d : List (String × α))
    (key k : String) (v : α) (hd : dictLookup d key = none) (hk : k ≠ key) :
    dictLookup (dictInsert d k v) key = none := by
  rw [dictLookup_dictInsert_ne d key k v hk]
  exact hd

end Skywalker

namespace Skywalker

/-! ### Fixed-size display slots (`gui.py`, `none_pad` and callers)

`MAX_MIRRORS = 2` in the main console.  `none_pad` is the literal
`while len(padded) < MAX_MIRRORS: padded.append(None)` loop. -/

def MAX_MIRRORS : Nat := 2

/-- `SkywalkerGui.none_pad`: extend a list with `None` entries until it has
length `MAX_MIRRORS` (lists already that long are returned unchanged). -/
def none_pad {α : Type} (padded : List (Option α)) : List (Option α) :=
  if padded.length < MAX_MIRRORS then none_pad (padded ++ [none]) else padded
termination_by MAX_MIRRORS - padded.length
decreasing_by
  simp only [List.length_append, List.length_cons, List.length_nil]
  omega

theorem none_pad_of_length_ge {α : Type} (l : List (Option α))
    (h : MAX_MIRRORS ≤ l.length) : none_pad l = l := by
  rw [none_pad]
  simp [Nat.not_lt.mpr h]

/-- The while loop appends exactly the missing number of `None` markers. -/
theorem none_pad_eq_append {α : Type} (l : List (Option α)) :
    none_pad l = l ++ List.replicate (MAX_MIRRORS - l.length) none := by
  by_cases h : l.length < MAX_MIRRORS
  · rw [none_pad]
    simp only [h, if_true]
    rw [none_pad_eq_append (l ++ [none])]
    have hlen : (l ++ [(none : Option α)]).length = l.length + 1 := by simp
    rw [hlen]
    have : MAX_MIRRORS - l.length = (MAX_MIRRORS - (l.length + 1)) + 1 := by omega
    rw [this, List.replicate_succ, List.append_assoc]
    rfl
  · rw [none_pad_of_length_ge l (Nat.not_lt.mp h)]
    have : MAX_MIRRORS - l.length = 0 := by omega
    rw [this]
    simp
termination_by MAX_MIRRORS - l.length
decreasing_by
  simp only [List.length_append, List.length_cons, List.length_nil]
  omega

theorem none_pad_length {α : Type} (l : List (Option α))
    (h : l.length ≤ MAX_MIRRORS) : (none_pad l).length = MAX_MIRRORS := by
  rw [none_pad_eq_append]
  simp only [List.length_append, List.length_replicate]
  omega

end Skywalker

namespace Skywalker

/-! ### Automatic camera switching (`gui.py`, `pick_cam`)

`pick_cam` is the state-change callback installed on every imager.  The
in/out position a device reports is a plain string (`"IN"`, `"OUT"`,
`"Unknown"`, ...), compared literally by the code. -/

/-- One imager as seen by `pick_cam`: its name and the in/out position
string its state channel currently reports. -/
structure Imager where
  name : String
  position : String
deriving DecidableEq

/-- The `for img in self.imagers()` loop body of `pick_cam`:
`none` models the early `return` on an `"Unknown"` position (scan aborted);
`some none` models the loop running to completion with `chosen_imager`
still `None`; `some (some img)` models `break` with `chosen_imager = img`. -/
def scan_cam : List Imager → Option (Option Imager)
  | [] => some none
  | img :: rest =>
    if img.position = "Unknown" then none
    else if img.position = "IN" then some (some img)
    else scan_cam rest

/-- `SkywalkerGui.pick_cam`, returning `some name` exactly when the imager
selector is switched to `name` (i.e. `combo.setCurrentIndex` is reached),
and `none` when the callback leaves the selector untouched.
`currentText` is `combo.currentText()`, the currently displayed imager. -/
def pick_cam (auto_switch_cam : Bool) (imagers : List Imager)
    (currentText : String) : Option String :=
  if auto_switch_cam then
    match scan_cam imagers with
    | none => none
    | some none => none
    | some (some chosen) =>
      if chosen.name ≠ currentText then some chosen.name else none
  else none

theorem scan_cam_eq_some_some (imgs : List Imager) (img : Imager) :
    scan_cam imgs = some (some img) ↔
      ∃ pre post, imgs = pre ++ img :: post ∧ img.position = "IN" ∧
        ∀ x ∈ pre, x.position ≠ "IN" ∧ x.position ≠ "Unknown" := by
  induction imgs with
  | nil =>
    simp only [scan_cam]
    constructor
    · intro h
      exact absurd (Option.some.inj h) (by simp)
    · rintro ⟨pre, post, habs, -⟩
      exact absurd habs (by simp)
  | cons a rest ih =>
    by_cases hu : a.position = "Unknown"
    · simp only [scan_cam, hu, if_true, reduceCtorEq, false_iff]
      · rintro ⟨pre, post, hdec, hin, hpre⟩
        cases pre with
        | nil =>
          simp only [List.nil_append, List.cons.injEq] at hdec
          rw [hdec.1] at hu
          rw [hu] at hin
          exact absurd hin (by decide)
        | cons b pre₂ =>
          simp only [List.cons_append, List.cons.injEq] at hdec
          have := hpre b (by simp)
          rw [hdec.1] at hu
          exact this.2 hu
    · by_cases hin : a.position = "IN"
      · simp only [scan_cam]
        rw [if_neg hu, if_pos hin]
        simp only [Option.some.injEq]
        constructor
        · intro h
          subst h
          exact ⟨[], rest, by simp, hin, by simp⟩
        · rintro ⟨pre, post, hdec, himg, hpre⟩
          cases pre with
          | nil =>
            simp only [List.nil_append, List.cons.injEq] at hdec
            rw [hdec.1]
          | cons b pre₂ =>
            simp only [List.cons_append, List.cons.injEq] at hdec
            have := hpre b (by simp)
            rw [hdec.1] at hin
            exact absurd hin this.1
      · simp only [scan_cam, hu, hin, if_false, ih]
        constructor
        · rintro ⟨pre, post, hdec, himg, hpre⟩
          refine ⟨a :: pre, post, by rw [hdec]; rfl, himg, ?_⟩
          intro x hx
          rcases List.mem_cons.mp hx with hxa | hxp
          · rw [hxa]; exact ⟨hin, hu⟩
          · exact hpre x hxp
        · rintro ⟨pre, post, hdec, himg, hpre⟩
          cases pre with
          | nil =>
            simp only [List.nil_append, List.cons.injEq] at hdec
            rw [hdec.1] at hin
            exact absurd himg hin
          | cons b pre₂ =>
            simp only [List.cons_append, List.cons.injEq] at hdec
            exact ⟨pre₂, post, hdec.2, himg,
              fun x hx => hpre x (List.mem_cons_of_mem b hx)⟩

/-- The scan aborts (early `return`) exactly when an `"Unknown"` position is
encountered before any `"IN"` position. -/
theorem scan_cam_eq_none (imgs : List Imager) :
    scan_cam imgs = none ↔
      ∃ pre x post, imgs = pre ++ x :: post ∧ x.position = "Unknown" ∧
        ∀ y ∈ pre, y.position ≠ "IN" ∧ y.position ≠ "Unknown" := by
  induction imgs with
  | nil =>
    simp only [scan_cam, reduceCtorEq, false_iff]
    rintro ⟨pre, x, post, habs, -⟩
    exact absurd habs (by simp)
  | cons a rest ih =>
    by_cases hu : a.position = "Unknown"
    · simp only [scan_cam, hu, if_true, true_iff]
      exact ⟨[], a, rest, by simp [hu]⟩
    · by_cases hin : a.position = "IN"
      · simp only [scan_cam]
        rw [if_neg hu, if_pos hin]
        simp only [reduceCtorEq, false_iff]
        rintro ⟨pre, x, post, hdec, hx, hpre⟩
        cases pre with
        | nil =>
          simp only [List.nil_append, List.cons.injEq] at hdec
          rw [hdec.1] at hu
          exact hu hx
        | cons b pre₂ =>
          simp only [List.cons_append, List.cons.injEq] at hdec
          have := hpre b (by simp)
          rw [hdec.1] at hin
          exact this.1 hin
      · simp only [scan_cam, hu, hin, if_false, ih]
        constructor
        · rintro ⟨pre, x, post, hdec, hx, hpre⟩
          refine ⟨a :: pre, x, post, by rw [hdec]; rfl, hx, ?_⟩
          intro y hy
          rcases List.mem_cons.mp hy with hya | hyp
          · rw [hya]; exact ⟨hin, hu⟩
          · exact hpre y hyp
        · rintro ⟨pre, x, post, hdec, hx, hpre⟩
          cases pre with
          | nil =>
            simp only [List.nil_append, List.cons.injEq] at hdec
            rw [hdec.1] at hu
            exact absurd hx hu
          | cons b pre₂ =>
            simp only [List.cons_append, List.cons.injEq] at hdec
            exact ⟨pre₂, x, post, hdec.2, hx,
              fun y hy => hpre y (List.mem_cons_of_mem b hy)⟩

/-- The armed callback, reduced to a match on its scan result. -/
theorem pick_cam_true_eq (imgs : List Imager) (cur : String) :
    pick_cam true imgs cur =
      match scan_cam imgs with
      | none => none
      | some none => none
      | some (some chosen) =>
        if chosen.name ≠ cur then some chosen.name else none := rfl

/-- C1 (amended): on each trigger of the armed callback the imagers are
scanned in active-system order; the scan aborts with no selector change
when an "Unknown" position is encountered before the first "IN" position;
otherwise the first imager reporting "IN" is selected and the selector is
switched to it exactly when its name differs from the currently displayed
imager name.  In particular positions ["OUT", "IN", "IN"] select the
second imager and ["Unknown", "IN"] produce no switch. -/
theorem pick_cam_switch_characterization :
    (∀ (imgs : List Imager) (cur n : String),
      pick_cam true imgs cur = some n ↔
        ∃ pre img post, imgs = pre ++ img :: post ∧ img.position = "IN" ∧
          (∀ x ∈ pre, x.position ≠ "IN" ∧ x.position ≠ "Unknown") ∧
          n = img.name ∧ n ≠ cur) ∧
    pick_cam true [Imager.mk "img1" "OUT", Imager.mk "img2" "IN",
      Imager.mk "img3" "IN"] "img1" = some "img2" ∧
    pick_cam true [Imager.mk "img1" "Unknown", Imager.mk "img2" "IN"]
      "img1" = none := by
  refine ⟨?_, by decide, by decide⟩
  intro imgs cur n
  rw [pick_cam_true_eq]
  cases hscan : scan_cam imgs with
  | none =>
    constructor
    · intro h
      exact absurd h (by simp)
    · rintro ⟨pre, img, post, hdec, himg, hpre, hn, hncur⟩
      have h2 : scan_cam imgs = some (some img) :=
        (scan_cam_eq_some_some imgs img).mpr ⟨pre, post, hdec, himg, hpre⟩
      rw [hscan] at h2
      exact absurd h2 (by simp)
  | some o =>
    cases o with
    | none =>
      constructor
      · intro h
        exact absurd h (by simp)
      · rintro ⟨pre, img, post, hdec, himg, hpre, hn, hncur⟩
        have h2 : scan_cam imgs = some (some img) :=
          (scan_cam_eq_some_some imgs img).mpr ⟨pre, post, hdec, himg, hpre⟩
        rw [hscan] at h2
        exact absurd h2 (by simp)
    | some chosen =>
      obtain ⟨pre, post, hdec, hposIn, hpre⟩ :=
        (scan_cam_eq_some_some imgs chosen).mp hscan
      show (if chosen.name ≠ cur then some chosen.name else none) = some n ↔ _
      constructor
      · intro h
        by_cases hne : chosen.name ≠ cur
        · rw [if_pos hne] at h
          have hn := Option.some.inj h
          exact ⟨pre, chosen, post, hdec, hposIn, hpre, hn.symm,
            by rw [← hn]; exact hne⟩
        · rw [if_neg hne] at h
          exact absurd h (by simp)
      · rintro ⟨pre2, img, post2, hdec2, himg2, hpre2, hn, hncur⟩
        have h2 : scan_cam imgs = some (some img) :=
          (scan_cam_eq_some_some imgs img).mpr ⟨pre2, post2, hdec2, himg2, hpre2⟩
        rw [hscan] at h2
        have hic : chosen = img := Option.some.inj (Option.some.inj h2)
        rw [← hic] at hn
        rw [hn] at hncur ⊢
        rw [if_pos hncur]

/-- C1 counterexample: the claim "if any imager reports an Unknown in/out
position the scan is aborted with no selector change" fails on the code:
with positions ["IN", "Unknown"] the second imager reports "Unknown", yet
the callback switches the selector to the first imager. -/
theorem pick_cam_claim_counterexample :
    Imager.mk "img2" "Unknown" ∈
      [Imager.mk "img1" "IN", Imager.mk "img2" "Unknown"] ∧
    (Imager.mk "img2" "Unknown").position = "Unknown" ∧
    pick_cam true [Imager.mk "img1" "IN", Imager.mk "img2" "Unknown"]
      "img0" = some "img1" := by
  decide

end Skywalker

namespace Skywalker

/-! ### Value widget groups (`widgetgroup.py`, `ValueWidgetGroup`)

The text of a `QLineEdit` is modelled by what matters to `float(raw)`:
it is empty, or it is the decimal rendering of a number (Python's
`float → str → float` round trip is exact, so a field written through the
`value` setter re-parses to the same number), or it is nonempty text that
does not parse as a float. -/

/-- Contents of a line-edit field. -/
inductive EditText
  | empty : EditText
  | numeric : ℚ → EditText
  | invalid : EditText
deriving DecidableEq

/-- Python `float(raw)`: raises `ValueError` unless the text is the decimal
rendering of a number (the empty string also raises). -/
def pyFloat : EditText → Except String ℚ
  | EditText.empty => Except.error "ValueError"
  | EditText.numeric q => Except.ok q
  | EditText.invalid => Except.error "ValueError"

/-- State of a `ValueWidgetGroup` built with a `QDoubleValidator` (so
`force_type` is `float`), as used for the goal-entry slots: line edit,
label, checkbox, and the shared goal cache.  Widget identity and Qt
plumbing are irrelevant to the verified claims and are not modelled. -/
structure ValueWidgetGroup where
  labelText : String
  fieldText : EditText
  checkboxText : String
  checked : Bool
  visible : Bool
  cache : List (String × ℚ)
deriving DecidableEq

/-- The `value` property getter: empty text yields `None`; otherwise
`float(raw)` is attempted and a parse failure is caught and turned into
`None` (`try: return self.force_type(raw) except: return None`). -/
def vwg_value (g : ValueWidgetGroup) : Option ℚ :=
  match g.fieldText with
  | EditText.empty => none
  | raw =>
    match pyFloat raw with
    | Except.ok v => some v
    | Except.error _ => none

/-- The `value` property setter: `self.line_edit.setText(str(val))`. -/
def vwg_set_value (g : ValueWidgetGroup) (val : ℚ) : ValueWidgetGroup :=
  { g with fieldText := EditText.numeric val }

/-- `ValueWidgetGroup.save_value`: snapshot the outgoing (label text,
parsed value) pair into the cache, only when the value is present. -/
def save_value (g : ValueWidgetGroup) : ValueWidgetGroup :=
  match vwg_value g with
  | some v => { g with cache := dictInsert g.cache g.labelText v }
  | none => g

/-- `ValueWidgetGroup.load_value`: restore a cached value for `name` into
the on-screen field, if one is cached; the cache itself is untouched. -/
def load_value (g : ValueWidgetGroup) (name : Option String) :
    ValueWidgetGroup :=
  match name with
  | none => g
  | some n =>
    match dictLookup g.cache n with
    | some v => vwg_set_value g v
    | none => g

/-- `ValueWidgetGroup.clear`: `self.line_edit.clear()`. -/
def vwg_clear (g : ValueWidgetGroup) : ValueWidgetGroup :=
  { g with fieldText := EditText.empty }

/-- `ValueWidgetGroup.setup`: relabel the label and checkbox to the new
name (when present), force-uncheck the checkbox, then restore any cached
value for the incoming name. -/
def vwg_setup (g : ValueWidgetGroup) (name : Option String) :
    ValueWidgetGroup :=
  let g1 :=
    match name with
    | some n => { g with labelText := n, checkboxText := n }
    | none => g
  let g2 := { g1 with checked := false }
  load_value g2 name

/-- `BaseWidgetGroup.hide` restricted to the modelled state. -/
def vwg_hide (g : ValueWidgetGroup) : ValueWidgetGroup :=
  { g with visible := false }

/-- `BaseWidgetGroup.show` restricted to the modelled state. -/
def vwg_show (g : ValueWidgetGroup) : ValueWidgetGroup :=
  { g with visible := true }

/-- The per-slot effect of `SkywalkerGui.on_procedure_combo_changed`
(`gui.py`) on one goal group: first `save_value()` then `clear()`; then,
if the slot has no imager, hide it, else `setup(name=imager.name)` and
show it (the slit-checkbox enabling is not part of the cache/field
claims). -/
def procedure_switch_goal_slot (g : ValueWidgetGroup)
    (imagerName : Option String) : ValueWidgetGroup :=
  let g1 := vwg_clear (save_value g)
  match imagerName with
  | none => vwg_hide g1
  | some n => vwg_show (vwg_setup g1 (some n))

theorem load_value_cache (g : ValueWidgetGroup) (nm : Option String) :
    (load_value g nm).cache = g.cache := by
  cases nm with
  | none => rfl
  | some n =>
    simp only [load_value]
    cases dictLookup g.cache n <;> rfl

theorem vwg_setup_cache (g : ValueWidgetGroup) (nm : Option String) :
    (vwg_setup g nm).cache = g.cache := by
  cases nm with
  | none => simp [vwg_setup, load_value_cache]
  | some n => simp [vwg_setup, load_value_cache]

theorem save_value_of_none (g : ValueWidgetGroup)
    (h : vwg_value g = none) : save_value g = g := by
  simp [save_value, h]

theorem procedure_switch_goal_slot_cache_of_none (g : ValueWidgetGroup)
    (nm : Option String) (h : vwg_value g = none) :
    (procedure_switch_goal_slot g nm).cache = g.cache := by
  cases nm with
  | none => simp [procedure_switch_goal_slot, save_value_of_none g h,
      vwg_clear, vwg_hide]
  | some n =>
    simp [procedure_switch_goal_slot, save_value_of_none g h, vwg_clear,
      vwg_show, vwg_setup_cache]

/-- Saving never loses a cache binding: when the outgoing label differs
from `k`, or the outgoing value is absent, or it equals the cached value,
the binding of `k` survives `save_value` unchanged. -/
theorem dictLookup_save_value_cache (g : ValueWidgetGroup) (k : String)
    (v : ℚ) (h : dictLookup g.cache k = some v)
    (hside : g.labelText ≠ k ∨ vwg_value g = none ∨ vwg_value g = some v) :
    dictLookup (save_value g).cache k = some v := by
  cases hv : vwg_value g with
  | none => simp [save_value, hv, h]
  | some w =>
    rcases hside with hlab | hnone | hval
    · simp only [save_value, hv]
      rw [dictLookup_dictInsert_ne g.cache k g.labelText w hlab]
      exact h
    · rw [hv] at hnone
      exact absurd hnone (by simp)
    · rw [hv] at hval
      have hwv : w = v := Option.some.inj hval
      subst hwv
      by_cases hlab : g.labelText = k
      · simp only [save_value, hv]
        rw [hlab]
        exact dictLookup_dictInsert_self g.cache k w
      · simp only [save_value, hv]
        rw [dictLookup_dictInsert_ne g.cache k g.labelText w hlab]
        exact h

/-- Full effect of a procedure switch on one goal slot with an imager
present: the slot is relabelled, unchecked, shown, its field is restored
from the (post-snapshot) cache, and the cache is the post-snapshot one. -/
theorem procedure_switch_goal_slot_some (g : ValueWidgetGroup)
    (n : String) :
    procedure_switch_goal_slot g (some n) =
      { labelText := n,
        fieldText :=
          match dictLookup (save_value g).cache n with
          | some v => EditText.numeric v
          | none => EditText.empty,
        checkboxText := n, checked := false, visible := true,
        cache := (save_value g).cache } := by
  cases h : dictLookup (save_value g).cache n <;>
    simp [procedure_switch_goal_slot, vwg_setup, load_value, vwg_clear,
      vwg_show, vwg_set_value, h]

/-- C9: a value group built with a numeric (double) validator reads its
value totally: empty text yields an absent value, text whose float parse
raises yields an absent value (the exception is caught inside the
getter), and numeric text yields the parsed float. -/
theorem value_group_reads_total (g : ValueWidgetGroup) :
    (g.fieldText = EditText.empty → vwg_value g = none) ∧
    (∀ e, pyFloat g.fieldText = Except.error e → vwg_value g = none) ∧
    (∀ v, pyFloat g.fieldText = Except.ok v → vwg_value g = some v) := by
  refine ⟨?_, ?_, ?_⟩
  · intro h
    simp [vwg_value, h]
  · intro e herr
    cases hf : g.fieldText with
    | empty => simp [vwg_value, hf]
    | numeric q =>
      rw [hf] at herr
      exact absurd herr (by simp [pyFloat])
    | invalid => simp [vwg_value, hf, pyFloat]
  · intro v hv
    cases hf : g.fieldText with
    | empty =>
      rw [hf] at hv
      exact absurd hv (by simp [pyFloat])
    | numeric q =>
      rw [hf] at hv
      have : q = v := Except.ok.inj hv
      subst this
      simp [vwg_value, hf, pyFloat]
    | invalid =>
      rw [hf] at hv
      exact absurd hv (by simp [pyFloat])

/-- A goal-entry value group with an empty field, used as a concrete
evaluation point. -/
def vwgDemo (t : EditText) : ValueWidgetGroup :=
  { labelText := "imgA", fieldText := t, checkboxText := "imgA",
    checked := false, visible := true, cache := [] }

theorem value_group_reads_total_witness :
    vwg_value (vwgDemo EditText.empty) = none ∧
    vwg_value (vwgDemo EditText.invalid) = none ∧
    vwg_value (vwgDemo (EditText.numeric (25/2))) = some (25/2 : ℚ) :=
  ⟨(value_group_reads_total (vwgDemo EditText.empty)).1 rfl,
   (value_group_reads_total (vwgDemo EditText.invalid)).2.1 "ValueError" rfl,
   (value_group_reads_total (vwgDemo (EditText.numeric (25/2)))).2.2
     (25/2) rfl⟩

/-- C10: no value-group operation removes a goal-cache entry or overwrites
one with an absent value: `save_value` only ever inserts a present value,
and the other operations leave the cache untouched; consequently a slot
whose field reads as absent (cleared or unparseable) can go through a
whole procedure switch without disturbing any cached binding. -/
theorem goal_cache_never_loses_entries (g : ValueWidgetGroup)
    (nm : Option String) (q : ℚ) (k : String) (v : ℚ)
    (h : dictLookup g.cache k = some v) :
    (∃ w, dictLookup (save_value g).cache k = some w) ∧
    (load_value g nm).cache = g.cache ∧
    (vwg_clear g).cache = g.cache ∧
    (vwg_setup g nm).cache = g.cache ∧
    (vwg_set_value g q).cache = g.cache ∧
    (vwg_value g = none →
      dictLookup (procedure_switch_goal_slot g nm).cache k = some v) := by
  refine ⟨?_, load_value_cache g nm, rfl, vwg_setup_cache g nm, rfl, ?_⟩
  · cases hv : vwg_value g with
    | none => exact ⟨v, by simp [save_value, hv, h]⟩
    | some w =>
      simp only [save_value, hv]
      exact dictLookup_dictInsert_isSome g.cache k g.labelText w v h
  · intro hnone
    rw [procedure_switch_goal_slot_cache_of_none g nm hnone]
    exact h

/-- A goal-entry group holding a cached binding, with an empty field. -/
def vwgCachedDemo : ValueWidgetGroup :=
  { labelText := "imgB", fieldText := EditText.empty, checkboxText := "imgB",
    checked := false, visible := true, cache := [("imgA", 25/2)] }

theorem goal_cache_never_loses_entries_witness :
    dictLookup vwgCachedDemo.cache "imgA" = some (25/2 : ℚ) ∧
    vwg_value vwgCachedDemo = none ∧
    dictLookup (procedure_switch_goal_slot vwgCachedDemo
      (some "imgB")).cache "imgA" = some (25/2 : ℚ) :=
  ⟨rfl, rfl,
   (goal_cache_never_loses_entries vwgCachedDemo (some "imgB") 1 "imgA"
     (25/2) rfl).2.2.2.2.2 rfl⟩

/-- C6: with `12.5` cached under `"imgA"`, selecting a procedure whose
first imager is `"imgA"` pre-fills the slot's goal field with `12.5`
(provided the outgoing slot does not itself snapshot a different value
under `"imgA"`: its label differs or its field reads absent), and
selecting a different procedure and then the original one again restores
the same value through the cache round trip. -/
theorem goal_cache_round_trip (g : ValueWidgetGroup)
    (hcache : dictLookup g.cache "imgA" = some (25/2 : ℚ))
    (hout : g.labelText ≠ "imgA" ∨ vwg_value g = none) :
    (procedure_switch_goal_slot g (some "imgA")).fieldText
        = EditText.numeric (25/2 : ℚ) ∧
    (procedure_switch_goal_slot
      (procedure_switch_goal_slot
        (procedure_switch_goal_slot g (some "imgA")) (some "imgB"))
      (some "imgA")).fieldText = EditText.numeric (25/2 : ℚ) := by
  have hc1 : dictLookup (save_value g).cache "imgA" = some (25/2 : ℚ) := by
    rcases hout with hlab | hval
    · exact dictLookup_save_value_cache g "imgA" (25/2) hcache (Or.inl hlab)
    · exact dictLookup_save_value_cache g "imgA" (25/2) hcache
        (Or.inr (Or.inl hval))
  have hg1 : procedure_switch_goal_slot g (some "imgA") =
      { labelText := "imgA", fieldText := EditText.numeric (25/2 : ℚ),
        checkboxText := "imgA", checked := false, visible := true,
        cache := (save_value g).cache } := by
    rw [procedure_switch_goal_slot_some g "imgA", hc1]
  refine ⟨by rw [hg1], ?_⟩
  rw [hg1]
  set G1 : ValueWidgetGroup :=
    { labelText := "imgA", fieldText := EditText.numeric (25/2 : ℚ),
      checkboxText := "imgA", checked := false, visible := true,
      cache := (save_value g).cache } with hG1
  have hc2 : dictLookup (save_value G1).cache "imgA" = some (25/2 : ℚ) :=
    dictLookup_save_value_cache G1 "imgA" (25/2) hc1
      (Or.inr (Or.inr rfl))
  have hg2cache : (procedure_switch_goal_slot G1 (some "imgB")).cache
      = (save_value G1).cache := by
    rw [procedure_switch_goal_slot_some]
  have hg2label : (procedure_switch_goal_slot G1 (some "imgB")).labelText
      = "imgB" := by
    rw [procedure_switch_goal_slot_some]
  have hc3 : dictLookup
      (save_value (procedure_switch_goal_slot G1 (some "imgB"))).cache
      "imgA" = some (25/2 : ℚ) := by
    refine dictLookup_save_value_cache _ "imgA" (25/2) ?_ (Or.inl ?_)
    · rw [hg2cache]
      exact hc2
    · rw [hg2label]
      decide
  rw [procedure_switch_goal_slot_some
    (procedure_switch_goal_slot G1 (some "imgB")) "imgA", hc3]

/-- A slot previously bound to a different imager, with the claim's cache. -/
def vwgRoundTripDemo : ValueWidgetGroup :=
  { labelText := "other", fieldText := EditText.empty, checkboxText := "other",
    checked := false, visible := true, cache := [("imgA", 25/2)] }

theorem goal_cache_round_trip_witness :
    dictLookup vwgRoundTripDemo.cache "imgA" = some (25/2 : ℚ) ∧
    vwgRoundTripDemo.labelText ≠ "imgA" ∧
    (procedure_switch_goal_slot vwgRoundTripDemo (some "imgA")).fieldText
      = EditText.numeric (25/2 : ℚ) :=
  ⟨rfl, by decide,
   (goal_cache_round_trip vwgRoundTripDemo rfl (Or.inl (by decide))).1⟩

end Skywalker

namespace Skywalker

/-! ### Engine status label (`gui.py`, the `new_set` closure)

The console patches the engine's state-setter so every transition also
writes `" Status: " + state.capitalize()` into the status label. -/

/-- Python `str.capitalize()`: first character upper-cased, the remainder
lower-cased. -/
def pyCapitalize (s : String) : String :=
  match s.data with
  | [] => ""
  | c :: cs => String.mk (c.toUpper :: cs.map Char.toLower)

/-- The engine state together with the on-screen status label. -/
structure EngineUi where
  reState : String
  statusLabel : String
deriving DecidableEq

/-- The patched state-setter `new_set`: store the new state (the original
setter), then set the label text to `" Status: " + state.capitalize()`. -/
def new_set (_e : EngineUi) (state : String) : EngineUi :=
  { reState := state,
    statusLabel := " Status: " ++ pyCapitalize state }

/-- C7 counterexample: the transition to state "running" does not write
`"Status: Running"` into the label; the code writes a string with a
leading space, `" Status: Running"`. -/
theorem status_label_counterexample :
    (new_set (EngineUi.mk "idle" "") "running").statusLabel
        ≠ "Status: Running" ∧
    (new_set (EngineUi.mk "idle" "") "running").statusLabel
        = " Status: Running" := by
  constructor
  · decide
  · decide

/-- C7 (amended): every engine state transition stores the new state and
writes `" Status: "` (with a leading space) followed by the state name
with its first letter capitalized into the status label; in particular
the transitions to "running", "idle" and "paused" write
`" Status: Running"`, `" Status: Idle"` and `" Status: Paused"`. -/
theorem status_label_on_transition :
    (∀ (e : EngineUi) (state : String),
      (new_set e state).reState = state ∧
      (new_set e state).statusLabel = " Status: " ++ pyCapitalize state) ∧
    (new_set (EngineUi.mk "idle" "") "running").statusLabel
        = " Status: Running" ∧
    (new_set (EngineUi.mk "running" " Status: Running") "idle").statusLabel
        = " Status: Idle" ∧
    (new_set (EngineUi.mk "running" " Status: Running") "paused").statusLabel
        = " Status: Paused" := by
  refine ⟨fun _ state => ⟨rfl, rfl⟩, by decide, by decide, by decide⟩

end Skywalker

namespace Skywalker

/-! ### The legacy console's goal snapshot (`skywalker_gui.py`,
`select_procedure`)

In the legacy console the per-slot snapshot is
`old_goal = str(gedit.text()); if len(old_goal) > 0:
goal_cache[str(glabel.text())] = float(old_goal)` executed directly in
`select_procedure`, which `on_procedure_combo_changed` calls with no
`try/except` around it: a `float` parse failure propagates to the caller
(the hosting event loop).  Only the goal-cache thread of the handler is
modelled; the widget relabelling and channel rewiring that follow cannot
raise before this line does and do not touch the cache. -/

/-- The legacy per-slot goal snapshot: skip empty text, otherwise parse
with `float` (which may raise) and store under the outgoing label text. -/
def legacy_cache_goal (labelText : String) (gedit : EditText)
    (cache : List (String × ℚ)) : Except String (List (String × ℚ)) :=
  match gedit with
  | EditText.empty => Except.ok cache
  | t =>
    match pyFloat t with
    | Except.ok v => Except.ok (dictInsert cache labelText v)
    | Except.error e => Except.error e

/-- `SkywalkerGui.on_procedure_combo_changed` of the legacy console,
restricted to its goal-cache effect across the padded slots: the body is
executed with no catch-log-continue guard, so the first parse failure
escapes the handler. -/
def legacy_on_procedure_combo_changed
    (slots : List (String × EditText)) (cache : List (String × ℚ)) :
    Except String (List (String × ℚ)) :=
  match slots with
  | [] => Except.ok cache
  | (lbl, txt) :: rest =>
    match legacy_cache_goal lbl txt cache with
    | Except.ok cache2 => legacy_on_procedure_combo_changed rest cache2
    | Except.error e => Except.error e

/-- C5 counterexample: in the legacy console, a procedure-combo change
with a nonempty unparseable goal text (e.g. the intermediate input "1e",
which the double validator admits) raises `ValueError` out of the
handler into the hosting event loop. -/
theorem legacy_handler_propagates_exception :
    legacy_on_procedure_combo_changed [("imgA", EditText.invalid)] []
      = Except.error "ValueError" := rfl

end Skywalker

namespace Skywalker

/-! ### Main console run path (`gui.py`, `on_start_button` and helpers)

The engine/run machinery is modelled as far as the verified claims reach:
the engine state string, the selected procedure, the alignments table,
the loader (whose index lookup yields `None` for unknown keys, making the
subsequent field access raise), and the parsed goal-field values.  The
result of `skywalker.utils.ad_stats_x_axis_rot(imager, rotation)` is not
in the sources under verification; it is carried as opaque per-subsystem
data (`RotInfo`), which is all the run path consumes of it. -/

/-- The fields of `ad_stats_x_axis_rot`'s result used by the run path:
the rotation-adjusted centroid key and the optional `mod_x` transform. -/
structure RotInfo where
  key : String
  mod_x : Option ℚ
deriving DecidableEq

/-- One resolved system entry: imager, mirror, optional slits, declared
rotation, and the rotation info of its imager. -/
structure Subsystem where
  imagerName : String
  mirrorName : String
  slitsName : Option String
  rotation : ℚ
  rotInfo : RotInfo
deriving DecidableEq

/-- Console state touched by the start handler. `goalValues` is
`self.goals()`: the parsed value of each goal field (`None` for empty or
unparseable text). -/
structure GuiState where
  reState : String
  procedure : String
  alignments : List (String × List (List String))
  loader : String → Option Subsystem
  goalValues : List (Option ℚ)
  autoSwitchCam : Bool

/-- `SkywalkerGui.active_system`: the flattened, order-preserving
concatenation of the active procedure's key-sets (empty for `"None"`). -/
def active_system (s : GuiState) : List String :=
  if s.procedure ≠ "None" then
    ((dictLookup s.alignments s.procedure).getD []).flatten
  else []

/-- `SkywalkerGui._objs('mirror')`: `None` slots stand for subsystems the
loader could not resolve. -/
def mirrors (s : GuiState) : List (Option String) :=
  (active_system s).map (fun act => (s.loader act).map
    (fun sub => sub.mirrorName))

/-- `SkywalkerGui._objs('imager')`. -/
def imagers (s : GuiState) : List (Option String) :=
  (active_system s).map (fun act => (s.loader act).map
    (fun sub => sub.imagerName))

/-- `SkywalkerGui._objs('slits')` (slits are an optional field of a
system entry). -/
def slits (s : GuiState) : List (Option String) :=
  (active_system s).map (fun act => (s.loader act).bind
    (fun sub => sub.slitsName))

/-- `SkywalkerGui.mirrors_padded`. -/
def mirrors_padded (s : GuiState) : List (Option String) :=
  none_pad (mirrors s)

/-- `SkywalkerGui.imagers_padded`. -/
def imagers_padded (s : GuiState) : List (Option String) :=
  none_pad (imagers s)

/-- `SkywalkerGui.slits_padded`. -/
def slits_padded (s : GuiState) : List (Option String) :=
  none_pad (slits s)

/-- C8: for an active system of length at most MAX_MIRRORS, each padded
accessor returns exactly MAX_MIRRORS elements: the input list in order,
followed by absent (`None`) markers. -/
theorem padded_functions_spec (s : GuiState)
    (h : (active_system s).length ≤ MAX_MIRRORS) :
    ((mirrors_padded s).length = MAX_MIRRORS ∧
      mirrors_padded s = mirrors s ++
        List.replicate (MAX_MIRRORS - (mirrors s).length) none) ∧
    ((imagers_padded s).length = MAX_MIRRORS ∧
      imagers_padded s = imagers s ++
        List.replicate (MAX_MIRRORS - (imagers s).length) none) ∧
    ((slits_padded s).length = MAX_MIRRORS ∧
      slits_padded s = slits s ++
        List.replicate (MAX_MIRRORS - (slits s).length) none) := by
  have hm : (mirrors s).length = (active_system s).length := by
    simp [mirrors]
  have hi : (imagers s).length = (active_system s).length := by
    simp [imagers]
  have hs : (slits s).length = (active_system s).length := by
    simp [slits]
  refine ⟨⟨?_, none_pad_eq_append _⟩, ⟨?_, none_pad_eq_append _⟩,
    ⟨?_, none_pad_eq_append _⟩⟩
  · exact none_pad_length _ (by rw [hm]; exact h)
  · exact none_pad_length _ (by rw [hi]; exact h)
  · exact none_pad_length _ (by rw [hs]; exact h)

/-- The goal-validation loop of `on_start_button`: enumerate the goal
fields, stop at the active system's size, fail on the first absent goal,
and collect the present ones. -/
def collect_goals : Nat → List (Option ℚ) → Option (List ℚ)
  | _, [] => some []
  | 0, _ :: _ => some []
  | n + 1, g :: rest =>
    match g with
    | none => none
    | some v => (collect_goals n rest).map (fun l => v :: l)

theorem collect_goals_eq_none (n : Nat) (gv : List (Option ℚ)) (i : Nat)
    (hi : i < n) (hnone : gv.get? i = some none) :
    collect_goals n gv = none := by
  induction gv generalizing n i with
  | nil => simp at hnone
  | cons g rest ih =>
    cases n with
    | zero => omega
    | succ m =>
      cases i with
      | zero =>
        simp only [List.get?] at hnone
        have hg : g = none := Option.some.inj hnone
        subst hg
        rfl
      | succ j =>
        simp only [List.get?] at hnone
        cases g with
        | none => rfl
        | some v =>
          show (collect_goals m rest).map (fun l => v :: l) = none
          rw [ih m j (by omega) hnone]
          rfl

/-- The parameters one `skywalker(...)` sequencer invocation receives. -/
structure Run where
  yags : List String
  mots : List String
  det_rbv : List String
  mot_rbv : String
  goals : List ℚ
deriving DecidableEq

/-- `self.loader[key]` followed by field access: an unknown key yields
`None`, and subscripting `None` raises `TypeError`. -/
def loader_getitem (s : GuiState) (k : String) : Except String Subsystem :=
  match s.loader k with
  | some sub => Except.ok sub
  | none => Except.error "TypeError"

/-- The per-key-set body of the idle branch of `on_start_button`: resolve
the key set, pair each rotation info with the corresponding raw goal
(`zip` truncation as in the source), apply `goal = mod_x - goal` when
`mod_x` is present, then the fixed correction `goal = 480 - goal`, and
assemble the sequencer parameters. -/
def mk_run (s : GuiState) (key_set : List String) (raw_goals : List ℚ) :
    Except String Run := do
  let subs ← key_set.mapM (loader_getitem s)
  let pairs := (subs.map (fun sub => sub.rotInfo)).zip raw_goals
  let det_rbv := pairs.map (fun p => p.1.key)
  let goals0 := pairs.map (fun p =>
    match p.1.mod_x with
    | some m => m - p.2
    | none => p.2)
  let goals1 := goals0.map (fun g => 480 - g)
  pure { yags := subs.map (fun sub => sub.imagerName),
         mots := subs.map (fun sub => sub.mirrorName),
         det_rbv := det_rbv, mot_rbv := "pitch", goals := goals1 }

/-- The body of `SkywalkerGui.on_start_button` (the part inside `try`),
returning the updated console state, the sequencer runs issued, and the
messages logged.  Device staging, suspender installation and the settings
plumbing do not affect any verified claim and are not modelled; the
engine's own transitions during a blocking run are outside the state. -/
def on_start_button_body (s : GuiState) :
    Except String (GuiState × List Run × List String) :=
  if s.reState = "idle" then
    if s.procedure = "None" then
      Except.ok (s, [], ["Please select a procedure."])
    else
      match collect_goals (active_system s).length s.goalValues with
      | none =>
        Except.ok (s, [], ["Please fill all goal fields before alignment."])
      | some raw_goals => do
        let s2 := { s with autoSwitchCam := true }
        let alignment := (dictLookup s.alignments s.procedure).getD []
        let runs ← alignment.mapM (fun key_set => mk_run s2 key_set raw_goals)
        pure (s2, runs, ["Starting procedure"])
  else if s.reState = "paused" then
    Except.ok ({ s with autoSwitchCam := true }, [], ["Resuming procedure."])
  else
    Except.ok (s, [], [])

/-- `SkywalkerGui.on_start_button`: the body inside
`try: ... except: logger.exception(...) finally:
self.auto_switch_cam = False` — any exception is logged and swallowed,
and camera auto-switch is disarmed unconditionally on exit. -/
def on_start_button (s : GuiState) :
    Except String (GuiState × List Run × List String) :=
  match on_start_button_body s with
  | Except.ok (s2, runs, logs) =>
    Except.ok ({ s2 with autoSwitchCam := false }, runs, logs)
  | Except.error _ =>
    Except.ok ({ s with autoSwitchCam := false }, [],
      ["Error in running procedure"])

end Skywalker

namespace Skywalker

theorem listGetMap {α β : Type} (f : α → β) (l : List α) (i : Nat) :
    (l.map f).get? i = (l.get? i).map f := by
  induction l generalizing i with
  | nil => simp
  | cons a rest ih =>
    cases i with
    | zero => rfl
    | succ j => exact ih j

theorem listGetZip {α β : Type} (l1 : List α) (l2 : List β) (i : Nat)
    (a : α) (b : β) (h1 : l1.get? i = some a) (h2 : l2.get? i = some b) :
    (l1.zip l2).get? i = some (a, b) := by
  induction l1 generalizing l2 i with
  | nil => simp at h1
  | cons x rest ih =>
    cases l2 with
    | nil => simp at h2
    | cons y rest2 =>
      cases i with
      | zero =>
        simp only [List.get?] at h1 h2
        rw [Option.some.inj h1, Option.some.inj h2]
        rfl
      | succ j =>
        simp only [List.get?] at h1 h2
        exact ih rest2 j h1 h2

/-- C2: for every goal actually passed to the sequencer, when the paired
imager's rotation info provides `mod_x` the value sent is
`480 - (mod_x - goal)`, and when `mod_x` is absent it is `480 - goal`;
and the two corrections compose to the identity exactly when
`mod_x = 480`. -/
theorem start_goal_transform (s : GuiState) (key_set : List String)
    (raw_goals : List ℚ) (subs : List Subsystem) (r : Run)
    (hsubs : key_set.mapM (loader_getitem s) = Except.ok subs)
    (hrun : mk_run s key_set raw_goals = Except.ok r) :
    (∀ (i : Nat) (ri : RotInfo) (g : ℚ),
      (subs.map (fun sub => sub.rotInfo)).get? i = some ri →
      raw_goals.get? i = some g →
      r.goals.get? i = some
        (match ri.mod_x with
         | some m => 480 - (m - g)
         | none => 480 - g)) ∧
    (∀ (m g : ℚ), 480 - (m - g) = g ↔ m = 480) := by
  have hmk : mk_run s key_set raw_goals = Except.ok
      { yags := subs.map (fun sub => sub.imagerName),
        mots := subs.map (fun sub => sub.mirrorName),
        det_rbv := ((subs.map (fun sub => sub.rotInfo)).zip raw_goals).map
          (fun p => p.1.key),
        mot_rbv := "pitch",
        goals := (((subs.map (fun sub => sub.rotInfo)).zip raw_goals).map
          (fun p =>
            match p.1.mod_x with
            | some m => m - p.2
            | none => p.2)).map (fun g => 480 - g) } := by
    unfold mk_run
    rw [hsubs]
    rfl
  rw [hmk] at hrun
  have hr := Except.ok.inj hrun
  constructor
  · intro i ri g hri hg
    rw [← hr]
    simp only []
    rw [listGetMap, listGetMap, listGetZip _ _ i ri g hri hg]
    cases hmx : ri.mod_x with
    | none => simp [hmx]
    | some m => simp [hmx]
  · intro m g
    constructor
    · intro h
      linarith
    · intro h
      rw [h]
      ring

/-- Rotation info of the demo subsystem: `mod_x = 480` present. -/
def rotInfoDemo : RotInfo :=
  { key := "stats2_centroid_y", mod_x := some 480 }

/-- A resolved demo system entry. -/
def subsystemDemo : Subsystem :=
  { imagerName := "imgA", mirrorName := "mirA", slitsName := some "slitA",
    rotation := 90, rotInfo := rotInfoDemo }

/-- An idle console with one two-key procedure selected, the first goal
filled and the second goal field empty. -/
def startDemoState : GuiState :=
  { reState := "idle", procedure := "P1",
    alignments := [("P1", [["k1", "k2"]])],
    loader := fun k => if k = "k1" ∨ k = "k2" then some subsystemDemo else none,
    goalValues := [some 100, none],
    autoSwitchCam := false }

/-- The run `mk_run` assembles for the one-key key-set `["k1"]` with raw
goal 100 under `rotInfoDemo`. -/
def runDemo : Run :=
  { yags := ["imgA"], mots := ["mirA"], det_rbv := ["stats2_centroid_y"],
    mot_rbv := "pitch", goals := [480 - (480 - 100)] }

theorem start_goal_transform_witness :
    List.mapM (loader_getitem startDemoState) ["k1"]
      = Except.ok [subsystemDemo] ∧
    mk_run startDemoState ["k1"] [100] = Except.ok runDemo ∧
    runDemo.goals.get? 0 = some ((480 : ℚ) - (480 - 100)) ∧
    (480 : ℚ) - (480 - 100) = 100 :=
  ⟨rfl, rfl,
   (start_goal_transform startDemoState ["k1"] [100] [subsystemDemo] runDemo
     rfl rfl).1 0 rotInfoDemo 100 rfl rfl,
   sub_sub_cancel 480 100⟩

/-- C3: from the idle state with a procedure selected, if any goal slot
within the active system's size reads absent (empty or unparseable), the
handler logs the fill-all-goals message, issues no sequencer run, and
leaves the console state unchanged apart from the unconditional
camera-auto-switch disarm of the `finally` block (in particular the
engine state is unchanged). -/
theorem start_button_missing_goal (s : GuiState)
    (hidle : s.reState = "idle") (hproc : s.procedure ≠ "None")
    (i : Nat) (hi : i < (active_system s).length)
    (hnone : s.goalValues.get? i = some none) :
    on_start_button s = Except.ok ({ s with autoSwitchCam := false }, [],
      ["Please fill all goal fields before alignment."]) := by
  have hcg : collect_goals (active_system s).length s.goalValues = none :=
    collect_goals_eq_none _ _ i hi hnone
  unfold on_start_button on_start_button_body
  rw [if_pos hidle, if_neg hproc, hcg]

theorem start_button_missing_goal_witness :
    startDemoState.reState = "idle" ∧
    startDemoState.procedure ≠ "None" ∧
    1 < (active_system startDemoState).length ∧
    startDemoState.goalValues.get? 1 = some none ∧
    on_start_button startDemoState =
      Except.ok ({ startDemoState with autoSwitchCam := false }, [],
        ["Please fill all goal fields before alignment."]) :=
  ⟨rfl, by decide, by decide, rfl,
   start_button_missing_goal startDemoState rfl (by decide) 1 (by decide) rfl⟩

/-- An idle console whose selected procedure references a key the loader
cannot resolve, with all goals filled: the handler body raises. -/
def errDemoState : GuiState :=
  { reState := "idle", procedure := "P1",
    alignments := [("P1", [["missing"]])],
    loader := fun _ => none,
    goalValues := [some 100, some 200],
    autoSwitchCam := false }

/-- C5 (amended): the main console's start handler catches, logs and
swallows any exception from its body — for every console state it
returns normally to the event loop — even though the body genuinely can
raise (e.g. resolving an unknown loader key raises `TypeError`).  The
legacy console's handlers have no such guard (see the counterexample). -/
theorem main_start_handler_never_raises :
    (∀ s : GuiState, ∃ r, on_start_button s = Except.ok r) ∧
    (∃ (s : GuiState) (e : String), on_start_button_body s = Except.error e) := by
  constructor
  · intro s
    unfold on_start_button
    cases on_start_button_body s with
    | ok r => exact ⟨_, rfl⟩
    | error e => exact ⟨_, rfl⟩
  · exact ⟨errDemoState, "TypeError", rfl⟩

end Skywalker

namespace Skywalker

/-! ### Persistence store (`gui.py`, `save_active_goals`,
`save_active_mirrors`)

The nominal/goal persistence file is a flat `name -> number` JSON
mapping.  `read_config` yields `None` when the file is missing or
unparseable, and every save re-reads the store before writing
(`d = self.read_config() or {}` / `read.update(saves)`). -/

/-- The goal-collection loop of `save_active_goals`: enumerate the goal
groups, stop at the active system's size, and keep the (label text,
value) pairs whose value is present. -/
def goals_to_save : Nat → List (String × Option ℚ) → List (String × ℚ)
  | _, [] => []
  | 0, _ :: _ => []
  | n + 1, (t, v) :: rest =>
    match v with
    | none => goals_to_save n rest
    | some val => (t, val) :: goals_to_save n rest

/-- Write a sequence of bindings into a store dict, one `d[t] = v` at a
time (also Python `read.update(saves)`). -/
def store_write (d : List (String × ℚ)) (kvs : List (String × ℚ)) :
    List (String × ℚ) :=
  kvs.foldl (fun acc p => dictInsert acc p.1 p.2) d

/-- `SkywalkerGui.save_active_goals`: read the store (`or {}` on a
missing/corrupt file), merge in the collected goal values keyed by label
text, and write the result back. -/
def save_active_goals (file : Option (List (String × ℚ)))
    (activeLen : Nat) (groups : List (String × Option ℚ)) :
    List (String × ℚ) :=
  store_write (file.getD []) (goals_to_save activeLen groups)

/-- The `saves[mirror.name] = 0` initialisation loop of
`save_active_mirrors`. -/
def mirror_avg_init (mirs : List (String × ℚ)) : List (String × ℚ) :=
  mirs.foldl (fun sv m => dictInsert sv m.1 0) []

/-- One pass of the averaging loop:
`saves[mirror.name] += mirror.position / averages` for every active
mirror (each mirror's live position is modelled as constant across the
read-out samples). -/
def mirror_sample_pass (mirs : List (String × ℚ))
    (saves : List (String × ℚ)) : List (String × ℚ) :=
  mirs.foldl
    (fun sv m => dictInsert sv m.1 ((dictLookup sv m.1).getD 0 + m.2 / 1000))
    saves

/-- The `for i in range(averages)` outer loop, `averages = 1000`. -/
def mirror_sample_loop : Nat → List (String × ℚ) → List (String × ℚ) →
    List (String × ℚ)
  | 0, _, saves => saves
  | n + 1, mirs, saves => mirror_sample_loop n mirs (mirror_sample_pass mirs saves)

/-- `SkywalkerGui.save_active_mirrors`: accumulate the 1000-sample mean of
each active mirror's position, read the store, merge the averaged values
keyed by mirror name, and write the result back. -/
def save_active_mirrors (file : Option (List (String × ℚ)))
    (mirs : List (String × ℚ)) : List (String × ℚ) :=
  let saves := mirror_sample_loop 1000 mirs (mirror_avg_init mirs)
  store_write (file.getD []) saves

theorem not_mem_map_fst {α : Type} (l : List (String × α)) (key : String)
    (h : key ∉ l.map Prod.fst) : ∀ p ∈ l, p.1 ≠ key := by
  intro p hp hpk
  exact h (by rw [← hpk]; exact List.mem_map_of_mem Prod.fst hp)

theorem store_write_preserve (d kvs : List (String × ℚ)) (key : String)
    (h : ∀ p ∈ kvs, p.1 ≠ key) :
    dictLookup (store_write d kvs) key = dictLookup d key := by
  induction kvs generalizing d with
  | nil => rfl
  | cons p rest ih =>
    show dictLookup (store_write (dictInsert d p.1 p.2) rest) key
      = dictLookup d key
    rw [ih (dictInsert d p.1 p.2) (fun q hq => h q (List.mem_cons_of_mem p hq))]
    exact dictLookup_dictInsert_ne d key p.1 p.2 (h p (by simp))

theorem mem_map_fst_dictInsert (d : List (String × ℚ)) (k key : String)
    (v : ℚ) (h : key ∈ (dictInsert d k v).map Prod.fst) :
    key ∈ d.map Prod.fst ∨ key = k := by
  induction d with
  | nil =>
    simp only [dictInsert, List.map_cons, List.map_nil, List.mem_cons,
      List.not_mem_nil, or_false] at h
    exact Or.inr h
  | cons p rest ih =>
    by_cases hk : p.1 = k
    · rw [show dictInsert (p :: rest) k v = (k, v) :: rest by
        simp [dictInsert, hk]] at h
      simp only [List.map_cons, List.mem_cons] at h
      rcases h with h | h
      · exact Or.inr h
      · exact Or.inl (by simp [h])
    · rw [show dictInsert (p :: rest) k v = p :: dictInsert rest k v by
        simp [dictInsert, hk]] at h
      simp only [List.map_cons, List.mem_cons] at h
      rcases h with h | h
      · exact Or.inl (by simp [h])
      · rcases ih h with h2 | h2
        · exact Or.inl (by simp [h2, List.mem_cons])
        · exact Or.inr h2

theorem mem_map_fst_foldl_insert (ms : List (String × ℚ))
    (val : List (String × ℚ) → String × ℚ → ℚ) (key : String) :
    ∀ saves : List (String × ℚ), (∀ m ∈ ms, m.1 ≠ key) →
      key ∉ saves.map Prod.fst →
      key ∉ (ms.foldl (fun sv m => dictInsert sv m.1 (val sv m))
        saves).map Prod.fst := by
  induction ms with
  | nil =>
    intro saves _ hs
    exact hs
  | cons a rest ih =>
    intro saves hms hs
    show key ∉ (rest.foldl (fun sv m => dictInsert sv m.1 (val sv m))
      (dictInsert saves a.1 (val saves a))).map Prod.fst
    refine ih (dictInsert saves a.1 (val saves a))
      (fun m hm => hms m (List.mem_cons_of_mem a hm)) ?_
    intro hmem
    rcases mem_map_fst_dictInsert saves a.1 key (val saves a) hmem with h | h
    · exact hs h
    · exact hms a (by simp) h.symm

theorem mirror_avg_init_keys (mirs : List (String × ℚ)) (key : String)
    (h : key ∉ mirs.map Prod.fst) :
    key ∉ (mirror_avg_init mirs).map Prod.fst :=
  mem_map_fst_foldl_insert mirs (fun _ _ => 0) key []
    (not_mem_map_fst mirs key h) (by simp)

theorem mirror_sample_loop_keys (mirs : List (String × ℚ)) (key : String)
    (hm : key ∉ mirs.map Prod.fst) :
    ∀ (n : Nat) (saves : List (String × ℚ)), key ∉ saves.map Prod.fst →
      key ∉ (mirror_sample_loop n mirs saves).map Prod.fst := by
  intro n
  induction n with
  | zero =>
    intro saves hs
    exact hs
  | succ k ih =>
    intro saves hs
    exact ih (mirror_sample_pass mirs saves)
      (mem_map_fst_foldl_insert mirs
        (fun sv m => (dictLookup sv m.1).getD 0 + m.2 / 1000) key saves
        (not_mem_map_fst mirs key hm) hs)

/-- C4: both persistence saves are read-modify-write merges: any binding
already in the stored mapping whose key is not among the names being
written survives with its value intact; and after saving mirror
positions, a subsequent goal save leaves every non-goal key (in
particular every saved mirror key) exactly as the mirror save left it. -/
theorem persistence_save_is_merge (st : List (String × ℚ))
    (activeLen : Nat) (groups : List (String × Option ℚ))
    (mirs : List (String × ℚ)) (key : String) (v : ℚ)
    (hkey : dictLookup st key = some v)
    (hg : key ∉ (goals_to_save activeLen groups).map Prod.fst)
    (hm : key ∉ mirs.map Prod.fst) :
    dictLookup (save_active_goals (some st) activeLen groups) key = some v ∧
    dictLookup (save_active_mirrors (some st) mirs) key = some v ∧
    dictLookup (save_active_goals (some (save_active_mirrors (some st) mirs))
        activeLen groups) key =
      dictLookup (save_active_mirrors (some st) mirs) key := by
  have hgoals := not_mem_map_fst _ key hg
  refine ⟨?_, ?_, ?_⟩
  · show dictLookup (store_write st (goals_to_save activeLen groups)) key
      = some v
    rw [store_write_preserve st _ key hgoals]
    exact hkey
  · show dictLookup (store_write st
      (mirror_sample_loop 1000 mirs (mirror_avg_init mirs))) key = some v
    rw [store_write_preserve st _ key (not_mem_map_fst _ key
      (mirror_sample_loop_keys mirs key hm 1000 (mirror_avg_init mirs)
        (mirror_avg_init_keys mirs key hm)))]
    exact hkey
  · generalize save_active_mirrors (some st) mirs = X
    exact store_write_preserve X (goals_to_save activeLen groups) key hgoals

/-- A store already holding a saved mirror position. -/
def storeDemo : List (String × ℚ) := [("mirrorA", 3)]

theorem persistence_save_is_merge_witness :
    dictLookup storeDemo "mirrorA" = some (3 : ℚ) ∧
    "mirrorA" ∉ (goals_to_save 1 [("imgA", some 5)]).map Prod.fst ∧
    "mirrorA" ∉ ([("mirrorB", 2)] : List (String × ℚ)).map Prod.fst ∧
    dictLookup (save_active_goals (some storeDemo) 1 [("imgA", some 5)])
      "mirrorA" = some (3 : ℚ) :=
  ⟨rfl, by decide, by decide,
   (persistence_save_is_merge storeDemo 1 [("imgA", some 5)]
     [("mirrorB", 2)] "mirrorA" 3 rfl (by decide) (by decide)).1⟩

end Skywalker

namespace Skywalker

theorem padded_functions_spec_witness :
    (active_system startDemoState).length ≤ MAX_MIRRORS ∧
    (mirrors_padded startDemoState).length = MAX_MIRRORS ∧
    (imagers_padded startDemoState).length = MAX_MIRRORS ∧
    (slits_padded startDemoState).length = MAX_MIRRORS :=
  ⟨by decide,
   (padded_functions_spec startDemoState (by decide)).1.1,
   (padded_functions_spec startDemoState (by decide)).2.1.1,
   (padded_functions_spec startDemoState (by decide)).2.2.1⟩

end Skywalker
